import Mathlib

/-!
# Verification of the `Db` core of native_db (struct_db)

Shallow embedding of `src/db.rs` and of the parts of the `watch` module that
`db.rs` uses.  Machine integers (`u64`) are modelled as `Nat` with explicit
reduction modulo `2^64` where the Rust semantics wraps.  Fallible operations
return `Except`.  The external storage engine (`redb`) and the ambient
facilities (`std::env::temp_dir`, `mpsc::channel`) are passed as parameters.

Parts of this repository that are not in the provided sources (the bodies of
`watch::Watchers`, `watch::TableFilter`, `watch::Batch`, `Transaction::commit`)
are modelled from the specification; each such definition carries a doc
comment starting with `Modelled from the spec:`.
-/

namespace NativeDb

/-- `u64::MAX` as a natural number. -/
def U64MAX : Nat := 2 ^ 64 - 1

/-- An engine-level error (the `redb::Error` cause), abstract. -/
structure EngineError where
  code : Nat
deriving DecidableEq, Repr

/-- An opened engine database handle (`redb::Database`), abstract. -/
structure Engine where
  handle : Nat
deriving DecidableEq, Repr

/-- A filesystem path, as its list of components (`std::path::Path`). -/
abbrev DbPath : Type := List String

/-- The crate's `Error` type, as far as `db.rs` uses it:
`InitDbBackendError { path, source }`, `MaxWatcherReached`, and opaque
propagation of an engine failure (used by the spec-modelled commit). -/
inductive DbError where
  | InitDbBackendError (path : DbPath) (source : EngineError)
  | MaxWatcherReached
  | BackendError (source : EngineError)
deriving DecidableEq, Repr

/-- Byte string: the model of `&[u8]` / `Vec<u8>`. -/
abbrev Bytes : Type := List Nat

/-- Model of `str::as_bytes` (an injective encoding of the string). -/
def strAsBytes (s : String) : Bytes := s.data.map Char.toNat

/-- The schema descriptor a storable type `T` supplies
(`T::struct_db_schema()`): its primary table name and the ordered list of
its secondary table names. -/
structure Schema where
  table_name : String
  secondary_tables_name : List String
deriving DecidableEq, Repr

/-- An engine table definition (`redb::TableDefinition::new(name)` wraps the
table name). -/
structure TableDefinition where
  name : String
deriving DecidableEq, Repr

/-- Model of `redb::TableDefinition::new`. -/
def TableDefinition.new (name : String) : TableDefinition := ⟨name⟩

/-- The `table_definitions` field of `Db`: a map from table name to table
definition (`HashMap<&str, TableDefinition>`), modelled as a function. -/
def TableDefinitions : Type := String → Option TableDefinition

/-- Model of `HashMap::new()`. -/
def TableDefinitions.empty : TableDefinitions := fun _ => none

/-- Model of `HashMap::insert` (overwrites any prior entry for the key). -/
def TableDefinitions.insert (m : TableDefinitions) (k : String)
    (v : TableDefinition) : TableDefinitions :=
  fun k' => if k' = k then some v else m k'

/-- The kind of key a filter watches. Modelled from the spec:
key-kind is `primary` or `secondary(name)`. -/
inductive KeyKind where
  | primary
  | secondary (name : String)
deriving DecidableEq, Repr

/-- Modelled from the spec: the match-kind of a `TableFilter` is
`exact(bytes)`, `prefix(bytes)` (named `startWith` after the constructor
names in `db.rs`), or `all`. -/
inductive MatchKind where
  | exact (k : Bytes)
  | startWith (p : Bytes)
  | all
deriving DecidableEq, Repr

/-- Modelled from the spec: `watch::TableFilter` (its definition is not in
the provided sources) is a tagged variant over
{table, key-kind, match-kind}. -/
structure TableFilter where
  table : Bytes
  keyKind : KeyKind
  matchKind : MatchKind
deriving DecidableEq, Repr

/-- Modelled from the spec: `TableFilter::new_primary(table, key)` builds a
primary filter, `all` when `key` is absent and `exact` when present. -/
def TableFilter.new_primary (table : Bytes) (key : Option Bytes) :
    TableFilter :=
  { table := table
    keyKind := KeyKind.primary
    matchKind :=
      match key with
      | none => MatchKind.all
      | some k => MatchKind.exact k }

/-- Modelled from the spec: `TableFilter::new_primary_start_with(table, p)`
builds a primary filter with match-kind `prefix(p)`. -/
def TableFilter.new_primary_start_with (table : Bytes) (p : Bytes) :
    TableFilter :=
  { table := table
    keyKind := KeyKind.primary
    matchKind := MatchKind.startWith p }

/-- Modelled from the spec: `TableFilter::new_secondary(table, key_def, key)`
builds a filter scoped to the named secondary index, `all` when `key` is
absent and `exact` when present. -/
def TableFilter.new_secondary (table : Bytes) (key_def : String)
    (key : Option Bytes) : TableFilter :=
  { table := table
    keyKind := KeyKind.secondary key_def
    matchKind :=
      match key with
      | none => MatchKind.all
      | some k => MatchKind.exact k }

/-- Modelled from the spec:
`TableFilter::new_secondary_start_with(table, key_def, p)` builds a
secondary filter with match-kind `prefix(p)`. -/
def TableFilter.new_secondary_start_with (table : Bytes) (key_def : String)
    (p : Bytes) : TableFilter :=
  { table := table
    keyKind := KeyKind.secondary key_def
    matchKind := MatchKind.startWith p }

/-- A channel handle: `mpsc::channel()` endpoints are identified by the
allocation order of the channel they belong to. -/
abbrev Channel : Type := Nat

/-- Modelled from the spec: `watch::Watchers` (its definition is not in the
provided sources) is a map from watcher id to {filter, event-channel
sender}, modelled as a function. -/
def Watchers : Type := Nat → Option (TableFilter × Channel)

/-- Modelled from the spec: `Watchers::new()` is the empty registry. -/
def Watchers.new : Watchers := fun _ => none

/-- Modelled from the spec: `Watchers::add_sender(id, filter, sender)`
inserts {id, filter, sender} into the id-to-record map. -/
def Watchers.add_sender (w : Watchers) (id : Nat) (filter : TableFilter)
    (sender : Channel) : Watchers :=
  fun id' => if id' = id then some (filter, sender) else w id'

/-- Modelled from the spec: `Watchers::remove_sender(id)` removes the
registry entry for `id` if present. -/
def Watchers.remove_sender (w : Watchers) (id : Nat) : Watchers :=
  fun id' => if id' = id then none else w id'

/-- The `Db` struct of `db.rs`: engine instance, table definitions, watcher
registry and the watcher-id counter (`AtomicU64`).  The extra `chan_supply`
field models the ambient `mpsc::channel()` allocator: the id of the next
fresh channel. -/
structure Db where
  instance_ : Engine
  table_definitions : TableDefinitions
  watchers : Watchers
  watchers_counter_id : Nat
  chan_supply : Nat

/-- `Db::init(path)`: `redb::Database::create` (passed as the parameter
`create`) either fails, mapped to `InitDbBackendError { path, source }`, or
yields the engine instance of a fresh `Db`. -/
def Db.init (create : DbPath → Except EngineError Engine) (path : DbPath) :
    Except DbError Db :=
  match create path with
  | Except.error e => Except.error (DbError.InitDbBackendError path e)
  | Except.ok db =>
      Except.ok
        { instance_ := db
          table_definitions := TableDefinitions.empty
          watchers := Watchers.new
          watchers_counter_id := 0
          chan_supply := 0 }

/-- `Db::init_tmp(name)`: joins the temporary directory (passed as the
parameter `temp_dir`, the model of `std::env::temp_dir()`) with `name` and
delegates to `Db::init`. -/
def Db.init_tmp (create : DbPath → Except EngineError Engine)
    (temp_dir : DbPath) (name : String) : Except DbError Db :=
  Db.init create (temp_dir ++ [name])

/-- `Db::define::<T>()`: registers `T`'s primary table and every declared
secondary table in `table_definitions`; returns the updated `Db` (the Rust
method takes `&mut self` and cannot fail). -/
def Db.define (db : Db) (schema : Schema) : Db :=
  let main_table_name := schema.table_name
  let main_table_definition := TableDefinition.new main_table_name
  let m1 := db.table_definitions.insert main_table_name main_table_definition
  let m2 := schema.secondary_tables_name.foldl
    (fun acc secondary_table_name =>
      acc.insert secondary_table_name
        (TableDefinition.new secondary_table_name)) m1
  { db with table_definitions := m2 }

/-- `Db::generate_watcher_id`: `fetch_add(1)` on the `AtomicU64` counter
returns the old value and stores the incremented value, wrapping modulo
`2^64`; the old value `u64::MAX` is mapped to `Error::MaxWatcherReached`.
Takes and returns the counter. -/
def generate_watcher_id (counter : Nat) : Except DbError Nat × Nat :=
  let value := counter
  let counter' := (counter + 1) % 2 ^ 64
  if value = U64MAX then
    (Except.error DbError.MaxWatcherReached, counter')
  else
    (Except.ok value, counter')

/-- `Db::watch_generic(table_filter)`: creates a fresh `mpsc` channel,
allocates a watcher id (propagating its failure), inserts
{id, filter, sender} into the registry, and returns the receiver paired
with the id. -/
def Db.watch_generic (db : Db) (table_filter : TableFilter) :
    Except DbError (Channel × Nat) × Db :=
  let event_sender : Channel := db.chan_supply
  let event_receiver : Channel := db.chan_supply
  let db1 := { db with chan_supply := db.chan_supply + 1 }
  match generate_watcher_id db1.watchers_counter_id with
  | (Except.error e, c') =>
      (Except.error e, { db1 with watchers_counter_id := c' })
  | (Except.ok id, c') =>
      (Except.ok (event_receiver, id),
        { db1 with
            watchers_counter_id := c'
            watchers := db1.watchers.add_sender id table_filter event_sender })

/-- `Db::primary_watch::<T>(key)`: builds the primary `TableFilter` over
`T`'s primary table and registers it via `watch_generic`. -/
def Db.primary_watch (db : Db) (schema : Schema) (key : Option Bytes) :
    Except DbError (Channel × Nat) × Db :=
  let table_name := schema.table_name
  let table_filter := TableFilter.new_primary (strAsBytes table_name) key
  db.watch_generic table_filter

/-- `Db::primary_watch_start_with::<T>(key_prefix)`: builds the primary
prefix `TableFilter` over `T`'s primary table and registers it via
`watch_generic`. -/
def Db.primary_watch_start_with (db : Db) (schema : Schema)
    (key_start : Bytes) : Except DbError (Channel × Nat) × Db :=
  let table_name := schema.table_name
  let table_filter :=
    TableFilter.new_primary_start_with (strAsBytes table_name) key_start
  db.watch_generic table_filter

/-- `Db::secondary_watch::<T>(key_def, key)`: builds the secondary
`TableFilter` and registers it via `watch_generic`. -/
def Db.secondary_watch (db : Db) (schema : Schema) (key_def : String)
    (key : Option Bytes) : Except DbError (Channel × Nat) × Db :=
  let table_name := schema.table_name
  let table_filter :=
    TableFilter.new_secondary (strAsBytes table_name) key_def key
  db.watch_generic table_filter

/-- `Db::secondary_watch_start_with::<T>(key_def, key_prefix)`: builds the
secondary prefix `TableFilter` and registers it via `watch_generic`. -/
def Db.secondary_watch_start_with (db : Db) (schema : Schema)
    (key_def : String) (key_start : Bytes) :
    Except DbError (Channel × Nat) × Db :=
  let table_name := schema.table_name
  let table_filter :=
    TableFilter.new_secondary_start_with (strAsBytes table_name) key_def
      key_start
  db.watch_generic table_filter

/-- `Db::unwatch(id)`: removes the registry entry for `id` and always
returns `Ok(())`. -/
def Db.unwatch (db : Db) (id : Nat) : Except DbError Unit × Db :=
  (Except.ok (), { db with watchers := db.watchers.remove_sender id })

/-- Modelled from the spec: a notification `watch::Event` (its definition is
not in the provided sources) is a tagged variant
{Insert{table, key, value}, Update{table, old and new key/value},
Delete{table, key, value}}. -/
inductive Event where
  | Insert (table : Bytes) (key : Bytes) (value : Bytes)
  | Update (table : Bytes) (old_key : Bytes) (old_value : Bytes)
      (new_key : Bytes) (new_value : Bytes)
  | Delete (table : Bytes) (key : Bytes) (value : Bytes)
deriving DecidableEq, Repr

/-- Modelled from the spec: a `watch::Batch` is the ordered sequence of
events enqueued by one write transaction. -/
def Batch : Type := List Event

/-- The write `Transaction`, restricted to what the commit/notification
claims need: its pending event `Batch`. -/
structure Transaction where
  batch : Batch

/-- One observable action on the commit path: the engine's durable commit
succeeding or failing, or an event being sent to the Watch Registry. -/
inductive Action where
  | engineCommitOk
  | engineCommitFail (e : EngineError)
  | send (ev : Event)
deriving DecidableEq, Repr

/-- Modelled from the spec: `Transaction::commit()` (its body is not in the
provided sources) delegates to the engine's durable commit (its outcome is
the parameter `engineResult`); only on success it drains the Batch in
enqueue order, dispatching each event through the Watch Registry; on engine
failure it propagates the failure and discards the Batch.  Returns the
result together with the ordered trace of actions performed. -/
def Transaction.commit (txn : Transaction)
    (engineResult : Except EngineError Unit) :
    Except DbError Unit × List Action :=
  match engineResult with
  | Except.ok _ =>
      (Except.ok (), Action.engineCommitOk :: txn.batch.map Action.send)
  | Except.error e =>
      (Except.error (DbError.BackendError e), [Action.engineCommitFail e])

/-- Modelled from the spec: dropping a write transaction without committing
aborts it — the engine rolls back and the Batch is discarded untouched, so
no action is performed on the notification path. -/
def Transaction.abort (_txn : Transaction) : List Action := []

/-- The events sent in an action trace, in order. -/
def sentEvents (trace : List Action) : List Event :=
  trace.filterMap fun a =>
    match a with
    | Action.send ev => some ev
    | _ => none

/-- The watcher-id counter after `n` calls to `generate_watcher_id` on a
freshly initialized `Db` (the counter starts at 0). -/
def iterState : Nat → Nat
  | 0 => 0
  | n + 1 => (generate_watcher_id (iterState n)).2

/-! ## Helper lemmas -/

lemma generate_watcher_id_snd (counter : Nat) :
    (generate_watcher_id counter).2 = (counter + 1) % 2 ^ 64 := by
  unfold generate_watcher_id
  simp only []
  split <;> rfl

lemma generate_watcher_id_fst (counter : Nat) (h : counter ≠ U64MAX) :
    (generate_watcher_id counter).1 = Except.ok counter := by
  unfold generate_watcher_id
  simp [h]

lemma generate_watcher_id_fst_max :
    (generate_watcher_id U64MAX).1 = Except.error DbError.MaxWatcherReached := by
  unfold generate_watcher_id
  simp

lemma iterState_eq (n : Nat) : iterState n = n % 2 ^ 64 := by
  induction n with
  | zero => rfl
  | succ m ih =>
      rw [iterState, generate_watcher_id_snd, ih]
      omega

lemma sentEvents_map_send (b : List Event) :
    sentEvents (b.map Action.send) = b := by
  induction b with
  | nil => rfl
  | cons e t ih =>
      simp only [List.map_cons, sentEvents, List.filterMap_cons]
      simpa [sentEvents] using ih

lemma foldl_insert_apply (l : List String) (acc : TableDefinitions)
    (k : String) :
    (l.foldl (fun a n => a.insert n (TableDefinition.new n)) acc) k
      = if k ∈ l then some (TableDefinition.new k) else acc k := by
  induction l generalizing acc with
  | nil => simp
  | cons n t ih =>
      rw [List.foldl_cons, ih]
      by_cases hkt : k ∈ t
      · simp [hkt]
      · by_cases hkn : k = n
        · subst hkn
          simp [hkt, TableDefinitions.insert]
        · simp [hkt, hkn, TableDefinitions.insert]

lemma define_apply (db : Db) (schema : Schema) (k : String) :
    (db.define schema).table_definitions k
      = if k = schema.table_name ∨ k ∈ schema.secondary_tables_name
        then some (TableDefinition.new k)
        else db.table_definitions k := by
  show (schema.secondary_tables_name.foldl
      (fun a n => a.insert n (TableDefinition.new n))
      (db.table_definitions.insert schema.table_name
        (TableDefinition.new schema.table_name))) k = _
  rw [foldl_insert_apply]
  by_cases hks : k ∈ schema.secondary_tables_name
  · simp [hks]
  · by_cases hkm : k = schema.table_name
    · subst hkm
      simp [hks, TableDefinitions.insert]
    · simp [hks, hkm, TableDefinitions.insert]

lemma remove_sender_idem (w : Watchers) (id : Nat) :
    (w.remove_sender id).remove_sender id = w.remove_sender id := by
  funext id'
  unfold Watchers.remove_sender
  split <;> rfl

/-- A concrete freshly initialized `Db` used by witnesses. -/
def db0 : Db :=
  { instance_ := ⟨0⟩
    table_definitions := TableDefinitions.empty
    watchers := Watchers.new
    watchers_counter_id := 0
    chan_supply := 0 }

/-- A concrete `Db` whose watcher-id counter sits at `u64::MAX`. -/
def dbMax : Db :=
  { instance_ := ⟨0⟩
    table_definitions := TableDefinitions.empty
    watchers := Watchers.new
    watchers_counter_id := U64MAX
    chan_supply := 0 }

/-! ## Claim theorems -/

/-- C6: `define::<T>()` cannot fail (it is a total function into `Db` with
no error component) and registers `T`'s primary table and every declared
secondary table under their names, overwriting any prior registration
stored under the same table names (the resulting entry at every registered
name is independent of the prior registry contents); names outside the
schema are untouched. -/
theorem define_registers_primary_and_secondaries (db : Db) (schema : Schema) :
    ((db.define schema).table_definitions schema.table_name
        = some (TableDefinition.new schema.table_name)) ∧
    (∀ n, n ∈ schema.secondary_tables_name →
        (db.define schema).table_definitions n
          = some (TableDefinition.new n)) ∧
    (∀ k, k ≠ schema.table_name → k ∉ schema.secondary_tables_name →
        (db.define schema).table_definitions k = db.table_definitions k) ∧
    (∀ db' : Db, ∀ k,
        k = schema.table_name ∨ k ∈ schema.secondary_tables_name →
        (db.define schema).table_definitions k
          = (db'.define schema).table_definitions k) := by
  refine ⟨?_, ?_, ?_, ?_⟩
  · rw [define_apply]
    simp
  · intro n hn
    rw [define_apply]
    simp [hn]
  · intro k h1 h2
    rw [define_apply]
    simp [h1, h2]
  · intro db' k hk
    rw [define_apply, define_apply]
    simp [hk]

/-- Witness for C6 at a concrete schema: the secondary table "s1" is
registered after `define`. -/
theorem define_registers_witness :
    (db0.define ⟨"t", ["s1", "s2"]⟩).table_definitions "s1"
      = some (TableDefinition.new "s1") :=
  (define_registers_primary_and_secondaries db0 ⟨"t", ["s1", "s2"]⟩).2.1 "s1"
    (by simp)

/-- C10: `define::<T>()` is idempotent — calling it twice in succession
leaves the table-definition map equal to the map after calling it once,
for every starting registry state. -/
theorem define_idempotent (db : Db) (schema : Schema) :
    ((db.define schema).define schema).table_definitions
      = (db.define schema).table_definitions := by
  funext k
  rw [define_apply, define_apply]
  by_cases h : k = schema.table_name ∨ k ∈ schema.secondary_tables_name
  · simp [h]
  · simp [h]

/-- C5: `unwatch(id)` always returns `Ok(())`; it removes the registry
entry for `id` when one exists and touches no other entry; when `id` is
unknown it leaves the registry exactly as it was; and a second call with
the same `id` yields the same result and the same state as a single call
(idempotent). -/
theorem unwatch_always_ok_and_idempotent (db : Db) (id : Nat) :
    (db.unwatch id).1 = Except.ok () ∧
    ((db.unwatch id).2).watchers id = none ∧
    (∀ id', id' ≠ id → ((db.unwatch id).2).watchers id' = db.watchers id') ∧
    (db.watchers id = none → ((db.unwatch id).2).watchers = db.watchers) ∧
    ((db.unwatch id).2).unwatch id = db.unwatch id := by
  refine ⟨rfl, ?_, ?_, ?_, ?_⟩
  · simp [Db.unwatch, Watchers.remove_sender]
  · intro id' h
    simp [Db.unwatch, Watchers.remove_sender, h]
  · intro h
    funext id'
    by_cases h' : id' = id
    · subst h'
      simp [Db.unwatch, Watchers.remove_sender, h]
    · simp [Db.unwatch, Watchers.remove_sender, h']
  · simp [Db.unwatch, remove_sender_idem]

/-- Witness for C5 at a concrete unknown id: unwatching id 5 on a fresh
`Db` succeeds and leaves the (empty) registry unchanged. -/
theorem unwatch_witness :
    (db0.unwatch 5).1 = Except.ok () ∧
    ((db0.unwatch 5).2).watchers = db0.watchers :=
  ⟨(unwatch_always_ok_and_idempotent db0 5).1,
    (unwatch_always_ok_and_idempotent db0 5).2.2.2.1 rfl⟩

/-- C7: `Db::init(path)` maps an engine create/open failure to
`InitDbBackendError` carrying exactly that path and the engine cause; on
engine success it returns a `Db` holding the engine instance, an empty
schema registry, an empty watcher registry and a zeroed watcher-id
counter; `init_tmp(name)` derives its path by joining the temporary
directory with `name`. -/
theorem init_error_carries_path_and_cause
    (create : DbPath → Except EngineError Engine) (path : DbPath) :
    (∀ e, create path = Except.error e →
        Db.init create path
          = Except.error (DbError.InitDbBackendError path e)) ∧
    (∀ eng, create path = Except.ok eng →
        ∃ db, Db.init create path = Except.ok db ∧
          db.instance_ = eng ∧
          db.table_definitions = TableDefinitions.empty ∧
          db.watchers = Watchers.new ∧
          db.watchers_counter_id = 0) ∧
    (∀ temp_dir name,
        Db.init_tmp create temp_dir name
          = Db.init create (temp_dir ++ [name])) := by
  refine ⟨?_, ?_, fun _ _ => rfl⟩
  · intro e he
    unfold Db.init
    rw [he]
  · intro eng he
    unfold Db.init
    rw [he]
    exact ⟨_, rfl, rfl, rfl, rfl, rfl⟩

/-- Witness for C7 at a concrete always-failing engine: `init` surfaces the
path and the cause. -/
theorem init_error_witness :
    Db.init (fun _ => Except.error ⟨7⟩) ["tmp", "db"]
      = Except.error (DbError.InitDbBackendError ["tmp", "db"] ⟨7⟩) :=
  (init_error_carries_path_and_cause (fun _ => Except.error ⟨7⟩)
    ["tmp", "db"]).1 ⟨7⟩ rfl

/-- C2 is violated by the code: `fetch_add(1)` increments (and wraps) the
counter before the `u64::MAX` check, so after the exhaustion error on the
2^64-th call the counter has wrapped to 0 and the (2^64+1)-th call returns
`Ok(0)` — the id 0 already handed out by the very first call is reused
after an exhaustion error has occurred. -/
theorem generate_watcher_id_reuses_id_after_wrap :
    (generate_watcher_id (iterState 0)).1 = Except.ok 0 ∧
    (generate_watcher_id (iterState (2 ^ 64 - 1))).1
      = Except.error DbError.MaxWatcherReached ∧
    (generate_watcher_id (iterState (2 ^ 64))).1 = Except.ok 0 := by
  have h0 : (0 : Nat) ≠ U64MAX := by
    unfold U64MAX
    norm_num
  refine ⟨?_, ?_, ?_⟩
  · rw [iterState_eq, Nat.zero_mod]
    exact generate_watcher_id_fst 0 h0
  · rw [iterState_eq]
    have hm : (2 ^ 64 - 1) % 2 ^ 64 = U64MAX := by
      unfold U64MAX
      omega
    rw [hm]
    exact generate_watcher_id_fst_max
  · rw [iterState_eq, Nat.mod_self]
    exact generate_watcher_id_fst 0 h0

/-- C9 counterexample: after the exhaustion error on the 2^64-th call, the
next successful registration is assigned id 0, which is not one greater
than the id 2^64-2 of the immediately preceding successful registration —
so the ids of successive successful registrations on one `Db` are not
always consecutive. -/
theorem watcher_ids_not_always_consecutive :
    (generate_watcher_id (iterState (2 ^ 64 - 2))).1
      = Except.ok (2 ^ 64 - 2) ∧
    (generate_watcher_id (iterState (2 ^ 64 - 1))).1
      = Except.error DbError.MaxWatcherReached ∧
    (generate_watcher_id (iterState (2 ^ 64))).1 = Except.ok 0 ∧
    (0 : Nat) ≠ (2 ^ 64 - 2) + 1 := by
  refine ⟨?_, ?_, ?_, by norm_num⟩
  · rw [iterState_eq, Nat.mod_eq_of_lt (by norm_num)]
    exact generate_watcher_id_fst _ (by unfold U64MAX; omega)
  · rw [iterState_eq]
    have hm : (2 ^ 64 - 1) % 2 ^ 64 = U64MAX := by
      unfold U64MAX
      omega
    rw [hm]
    exact generate_watcher_id_fst_max
  · rw [iterState_eq, Nat.mod_self]
    exact generate_watcher_id_fst 0 (by unfold U64MAX; norm_num)

/-- C9 amended: on a freshly initialized `Db`, as long as fewer than 2^64
registrations have been made (no exhaustion error yet), the (n+1)-th call
to `generate_watcher_id` succeeds with id exactly `n` — so the first
successful registration gets id 0 and each subsequent successful
registration gets an id exactly one greater than the preceding one. -/
theorem watcher_ids_consecutive_before_exhaustion (n : Nat)
    (h : n < 2 ^ 64 - 1) :
    (generate_watcher_id (iterState n)).1 = Except.ok n := by
  rw [iterState_eq, Nat.mod_eq_of_lt (by omega)]
  exact generate_watcher_id_fst n (by unfold U64MAX; omega)

/-- Witness for the amended C9: the fourth call returns id 3. -/
theorem watcher_ids_consecutive_witness :
    (generate_watcher_id (iterState 3)).1 = Except.ok 3 :=
  watcher_ids_consecutive_before_exhaustion 3 (by norm_num)

/-- C3: when the watcher-id counter holds `u64::MAX`, the next registration
(`generate_watcher_id`, hence `primary_watch`) fails with
`MaxWatcherReached` rather than succeeding, and the watcher registry —
every previously issued watcher's filter and sender — is left exactly as it
was, so previously issued watchers keep functioning. -/
theorem exhausted_counter_next_registration_fails (db : Db) (schema : Schema)
    (key : Option Bytes) (h : db.watchers_counter_id = U64MAX) :
    (generate_watcher_id db.watchers_counter_id).1
      = Except.error DbError.MaxWatcherReached ∧
    (db.primary_watch schema key).1
      = Except.error DbError.MaxWatcherReached ∧
    (db.primary_watch schema key).2.watchers = db.watchers := by
  have hg : generate_watcher_id db.watchers_counter_id
      = (Except.error DbError.MaxWatcherReached,
          (db.watchers_counter_id + 1) % 2 ^ 64) := by
    unfold generate_watcher_id
    simp [h]
  refine ⟨by rw [hg], ?_, ?_⟩
  · simp [Db.primary_watch, Db.watch_generic, hg]
  · simp [Db.primary_watch, Db.watch_generic, hg]

/-- Witness for C3 at a concrete exhausted `Db`: the registration fails
with the exhaustion error and the registry is untouched. -/
theorem exhausted_counter_witness :
    (dbMax.primary_watch ⟨"t", []⟩ none).1
      = Except.error DbError.MaxWatcherReached ∧
    (dbMax.primary_watch ⟨"t", []⟩ none).2.watchers = dbMax.watchers :=
  ⟨(exhausted_counter_next_registration_fails dbMax ⟨"t", []⟩ none rfl).2.1,
    (exhausted_counter_next_registration_fails dbMax ⟨"t", []⟩ none rfl).2.2⟩

/-- C8: when id allocation fails with the exhaustion error, `watch_generic`
— and each of the four watch front-ends — returns that error and leaves the
Watch Registry exactly as it was before the call: no sender is added. -/
theorem watch_error_leaves_registry_unchanged (db : Db) (f : TableFilter)
    (h : db.watchers_counter_id = U64MAX) :
    ((db.watch_generic f).1 = Except.error DbError.MaxWatcherReached ∧
      (db.watch_generic f).2.watchers = db.watchers) ∧
    (∀ schema key,
        (db.primary_watch schema key).1
            = Except.error DbError.MaxWatcherReached ∧
        (db.primary_watch schema key).2.watchers = db.watchers) ∧
    (∀ schema p,
        (db.primary_watch_start_with schema p).1
            = Except.error DbError.MaxWatcherReached ∧
        (db.primary_watch_start_with schema p).2.watchers = db.watchers) ∧
    (∀ schema kd key,
        (db.secondary_watch schema kd key).1
            = Except.error DbError.MaxWatcherReached ∧
        (db.secondary_watch schema kd key).2.watchers = db.watchers) ∧
    (∀ schema kd p,
        (db.secondary_watch_start_with schema kd p).1
            = Except.error DbError.MaxWatcherReached ∧
        (db.secondary_watch_start_with schema kd p).2.watchers
            = db.watchers) := by
  have hg : generate_watcher_id db.watchers_counter_id
      = (Except.error DbError.MaxWatcherReached,
          (db.watchers_counter_id + 1) % 2 ^ 64) := by
    unfold generate_watcher_id
    simp [h]
  have core : ∀ f' : TableFilter,
      (db.watch_generic f').1 = Except.error DbError.MaxWatcherReached ∧
      (db.watch_generic f').2.watchers = db.watchers := by
    intro f'
    constructor
    · simp [Db.watch_generic, hg]
    · simp [Db.watch_generic, hg]
  refine ⟨core f, ?_, ?_, ?_, ?_⟩
  · intro schema key
    simpa [Db.primary_watch] using core _
  · intro schema p
    simpa [Db.primary_watch_start_with] using core _
  · intro schema kd key
    simpa [Db.secondary_watch] using core _
  · intro schema kd p
    simpa [Db.secondary_watch_start_with] using core _

/-- Witness for C8 at a concrete exhausted `Db`: `watch_generic` errors and
the registry is exactly what it was. -/
theorem watch_error_registry_witness :
    (dbMax.watch_generic
        (TableFilter.new_primary (strAsBytes "t") none)).1
      = Except.error DbError.MaxWatcherReached ∧
    (dbMax.watch_generic
        (TableFilter.new_primary (strAsBytes "t") none)).2.watchers
      = dbMax.watchers :=
  (watch_error_leaves_registry_unchanged dbMax
    (TableFilter.new_primary (strAsBytes "t") none) rfl).1

/-- C4: when the counter is not exhausted, `primary_watch` registers, via
`watch_generic`, a watcher over `T`'s primary table whose filter is `all`
for `None`, `exact(k)` for `Some(k)`, and `prefix(p)` for
`primary_watch_start_with(p)`; `watch_generic` allocates a fresh event
channel (one no registered sender uses, given every registered sender came
from the supply), inserts {id, filter, sender} into the registry, and
returns the receiver of that same channel paired with the new id. -/
theorem primary_watch_registers_filter (db : Db) (schema : Schema)
    (hc : db.watchers_counter_id ≠ U64MAX)
    (hfresh : ∀ id e, db.watchers id = some e → e.2 < db.chan_supply) :
    (∀ key,
        (db.primary_watch schema key).1
          = Except.ok (db.chan_supply, db.watchers_counter_id) ∧
        (db.primary_watch schema key).2.watchers
          = db.watchers.add_sender db.watchers_counter_id
              (TableFilter.new_primary (strAsBytes schema.table_name) key)
              db.chan_supply) ∧
    ((TableFilter.new_primary (strAsBytes schema.table_name) none).matchKind
        = MatchKind.all) ∧
    (∀ k,
        (TableFilter.new_primary (strAsBytes schema.table_name)
            (some k)).matchKind = MatchKind.exact k) ∧
    (∀ p,
        (db.primary_watch_start_with schema p).1
          = Except.ok (db.chan_supply, db.watchers_counter_id) ∧
        (db.primary_watch_start_with schema p).2.watchers
          = db.watchers.add_sender db.watchers_counter_id
              (TableFilter.new_primary_start_with
                (strAsBytes schema.table_name) p)
              db.chan_supply) ∧
    (∀ id e, db.watchers id = some e → e.2 ≠ db.chan_supply) := by
  have hg : generate_watcher_id db.watchers_counter_id
      = (Except.ok db.watchers_counter_id,
          (db.watchers_counter_id + 1) % 2 ^ 64) := by
    unfold generate_watcher_id
    simp [hc]
  have core : ∀ f : TableFilter,
      (db.watch_generic f).1
          = Except.ok (db.chan_supply, db.watchers_counter_id) ∧
      (db.watch_generic f).2.watchers
          = db.watchers.add_sender db.watchers_counter_id f
              db.chan_supply := by
    intro f
    constructor
    · simp [Db.watch_generic, hg]
    · simp [Db.watch_generic, hg]
  refine ⟨?_, rfl, fun _ => rfl, ?_, ?_⟩
  · intro key
    simpa [Db.primary_watch] using core _
  · intro p
    simpa [Db.primary_watch_start_with] using core _
  · intro id e he hne
    exact absurd (hne ▸ hfresh id e he) (lt_irrefl _)

/-- Witness for C4 at a fresh `Db` and a concrete schema: watching with no
key succeeds with channel 0 and id 0, and the registered filter is the
`all` filter over the primary table. -/
theorem primary_watch_registers_witness :
    (db0.primary_watch ⟨"t", []⟩ none).1 = Except.ok (0, 0) ∧
    (db0.primary_watch ⟨"t", []⟩ none).2.watchers 0
      = some (TableFilter.new_primary (strAsBytes "t") none, 0) := by
  have hc : db0.watchers_counter_id ≠ U64MAX := by
    show (0 : Nat) ≠ U64MAX
    unfold U64MAX
    norm_num
  have hfresh : ∀ id e, db0.watchers id = some e → e.2 < db0.chan_supply := by
    intro id e he
    exact absurd he (by simp [db0, Watchers.new])
  have h := (primary_watch_registers_filter db0 ⟨"t", []⟩ hc hfresh).1 none
  refine ⟨h.1, ?_⟩
  rw [h.2]
  simp [Watchers.add_sender, db0]

/-- C1: on the commit path, an event is sent to the Watch Registry only
strictly after the engine's durable commit has succeeded in the same
trace; when the engine commit succeeds the events sent are exactly the
transaction's Batch in enqueue order; when the engine commit fails the
failure is propagated and no event is sent; an aborted (dropped)
transaction sends no event. -/
theorem commit_sends_events_only_after_durable_success (txn : Transaction)
    (r : Except EngineError Unit) :
    (∀ i ev, (txn.commit r).2.get? i = some (Action.send ev) →
        r = Except.ok () ∧
        ∃ j, j < i ∧ (txn.commit r).2.get? j = some Action.engineCommitOk) ∧
    (r = Except.ok () → sentEvents (txn.commit r).2 = txn.batch) ∧
    (∀ e, r = Except.error e →
        (txn.commit r).1 = Except.error (DbError.BackendError e) ∧
        sentEvents (txn.commit r).2 = []) ∧
    sentEvents txn.abort = [] := by
  cases r with
  | ok u =>
      refine ⟨?_, ?_, ?_, rfl⟩
      · intro i ev hi
        refine ⟨rfl, ?_⟩
        match i with
        | 0 =>
            simp [Transaction.commit] at hi
        | j + 1 =>
            exact ⟨0, Nat.succ_pos _, rfl⟩
      · intro _
        show sentEvents (Action.engineCommitOk :: txn.batch.map Action.send)
          = txn.batch
        have hcons :
            sentEvents (Action.engineCommitOk :: txn.batch.map Action.send)
              = sentEvents (txn.batch.map Action.send) := by
          simp [sentEvents]
        rw [hcons, sentEvents_map_send]
      · intro e he
        exact absurd he (by simp)
  | error e0 =>
      refine ⟨?_, ?_, ?_, rfl⟩
      · intro i ev hi
        exfalso
        match i with
        | 0 =>
            simp [Transaction.commit] at hi
        | j + 1 =>
            simp [Transaction.commit] at hi
      · intro he
        exact absurd he (by simp)
      · intro e he
        have : e0 = e := by
          injection he
        subst this
        exact ⟨rfl, rfl⟩

/-- Witness for C1 at a concrete one-event transaction: on engine success
exactly that event is sent (after the commit action), and the send at
trace index 1 is preceded by the successful engine commit at index 0. -/
theorem commit_sends_events_witness :
    sentEvents ((Transaction.mk [Event.Insert [1] [2] [3]]).commit
        (Except.ok ())).2 = [Event.Insert [1] [2] [3]] ∧
    ∃ j, j < 1 ∧
      ((Transaction.mk [Event.Insert [1] [2] [3]]).commit
          (Except.ok ())).2.get? j = some Action.engineCommitOk := by
  have h := commit_sends_events_only_after_durable_success
    (Transaction.mk [Event.Insert [1] [2] [3]]) (Except.ok ())
  exact ⟨h.2.1 rfl, (h.1 1 (Event.Insert [1] [2] [3]) rfl).2⟩

end NativeDb
